import Mathlib

/-!
Verification development for the NotesMate HTTP backend
(src/backend/api/index.py).

Shallow embedding choices:
  - JSON values supplied in a request body are modelled by `JVal`
    (`data.get` returns `jnull` for an absent field); Python truthiness
    and the `int()` builtin (which raises on `None` and on a non-numeric
    string) are modelled explicitly, since the handlers rely on both.
  - Each Flask handler becomes a pure function from the database state
    and the request fields to a response paired with the new state.
    The catch-all `except Exception` of every handler is modelled by
    routing every raised exception to the 500 response it produces.
    A path that returns an error before `conn.commit()` leaves the
    state unchanged (closing the connection rolls the transaction back).
  - The database tables are lists of rows; SQL `MAX`, `INSERT ... ON
    CONFLICT (key) DO UPDATE` (keyed on the primary key), `DELETE` and
    `UPDATE ... WHERE` are modelled by list functions.  Timestamps used
    by the OTP table are seconds since an epoch (`Nat`), so the Python
    `timedelta(minutes=5)` threshold is 300; note timestamps are the
    structured `DT` below because `update_note` parses them from text.
  - `random.randint(1000, 9999)`, `datetime.utcnow()` and the outcome
    of the email transport are inputs of the handler functions.
  - HTTP routing, CORS headers and logging are out of scope, as the
    specification declares.
-/

/-- A JSON value as seen by the handlers; `jnull` is both JSON null and
the result of `data.get` on an absent field. -/
inductive JVal where
  | jnull
  | jint (n : Int)
  | jstr (s : String)
  deriving DecidableEq

/-- The Python builtin `int(...)` as the handlers use it: succeeds on an
integer, parses a numeric string, raises TypeError on None and
ValueError on a non-numeric string. -/
def pyInt : JVal → Except String Int
  | .jnull => .error "int() argument must be a string or a number, not NoneType"
  | .jint n => .ok n
  | .jstr s =>
    match s.toInt? with
    | some n => .ok n
    | none => .error ("invalid literal for int() with base 10: " ++ s)

/-- Python truthiness of a JSON value: None, 0 and the empty string are
falsy. -/
def pyTruthy : JVal → Bool
  | .jnull => false
  | .jint n => n != 0
  | .jstr s => s != ""

/-- Python equality between a stored string and a submitted JSON value
(a string never equals None or an int in Python). -/
def pyEqStr (s : String) : JVal → Bool
  | .jstr t => s == t
  | _ => false

/-- Python `x or 0` applied to the result of `SELECT MAX(...)`:
`None or 0` is 0, `0 or 0` is 0, a nonzero int is itself. -/
def pyOrZero : Option Int → Int
  | none => 0
  | some n => if n == 0 then 0 else n

/-- A timestamp with microsecond precision, as stored for notes and as
produced by `datetime.strptime(s, l)` for the format
`%Y-%m-%dT%H:%M:%S.%f`. -/
structure DT where
  year : Nat
  month : Nat
  day : Nat
  hour : Nat
  minute : Nat
  second : Nat
  microsecond : Nat
  deriving DecidableEq

/-- Gregorian leap-year rule used by Python date validation. -/
def isLeapYear (y : Nat) : Bool :=
  (y % 4 == 0 && y % 100 != 0) || y % 400 == 0

/-- Number of days of a month, as Python date validation enforces. -/
def daysInMonth (y m : Nat) : Nat :=
  if m == 2 then (if isLeapYear y then 29 else 28)
  else if m == 4 || m == 6 || m == 9 || m == 11 then 30
  else 31

/-- Greedily take at most `n` leading digits of a character list,
returning them with the rest of the list. -/
def takeDigitsAux : Nat → List Char → List Char × List Char
  | 0, cs => ([], cs)
  | _ + 1, [] => ([], [])
  | n + 1, c :: cs =>
    if c.isDigit then
      match takeDigitsAux n cs with
      | (ds, rest) => (c :: ds, rest)
    else ([], c :: cs)

/-- Value of a digit string. -/
def digitsToNat (ds : List Char) : Nat :=
  ds.foldl (fun acc c => acc * 10 + (c.toNat - 48)) 0

/-- Consume one expected literal character. -/
def expectChar (c : Char) : List Char → Option (List Char)
  | [] => none
  | x :: xs => if x == c then some xs else none

/-- Consume the literal T of the format; strptime compiles its pattern
case-insensitively, so a lowercase t is accepted as well. -/
def expectT : List Char → Option (List Char)
  | [] => none
  | x :: xs => if x == 'T' || x == 't' then some xs else none

/-- Match the day directive of strptime: one or two digits, or a space
followed by a nonzero digit (the space-padded alternative its day
pattern also accepts). -/
def takeDay : List Char → Option (Nat × List Char)
  | ' ' :: c :: rest =>
    if 49 ≤ c.toNat ∧ c.toNat ≤ 57 then some (c.toNat - 48, rest) else none
  | cs =>
    match takeDigitsAux 2 cs with
    | ([], _) => none
    | (ds, rest) => some (digitsToNat ds, rest)

/-- Embedding of `datetime.strptime(s, f)` for the exact format string
the code uses (year dash month dash day, a literal T, hour colon minute
colon second, a literal dot, then the fractional field): the year
directive matches exactly four digits, the day matches one or two
digits or a space-padded single digit, the other numeric directives
match one to two digits (six for the fraction, which is right-padded
to microseconds), the whole input must be consumed, and the parsed
values must form a valid calendar datetime accepted by the datetime
constructor, else the call raises (modelled by `none`). -/
def strptime6 (s : String) : Option DT :=
  match takeDigitsAux 4 s.data with
  | (yds, r1) =>
    if yds.length ≠ 4 then none else
    match expectChar '-' r1 with
    | none => none
    | some r2 =>
      match takeDigitsAux 2 r2 with
      | (mds, r3) =>
        if mds.isEmpty then none else
        match expectChar '-' r3 with
        | none => none
        | some r4 =>
          match takeDay r4 with
          | none => none
          | some (dval, r5) =>
            match expectT r5 with
            | none => none
            | some r6 =>
              match takeDigitsAux 2 r6 with
              | (hds, r7) =>
                if hds.isEmpty then none else
                match expectChar ':' r7 with
                | none => none
                | some r8 =>
                  match takeDigitsAux 2 r8 with
                  | (mids, r9) =>
                    if mids.isEmpty then none else
                    match expectChar ':' r9 with
                    | none => none
                    | some r10 =>
                      match takeDigitsAux 2 r10 with
                      | (sds, r11) =>
                        if sds.isEmpty then none else
                        match expectChar '.' r11 with
                        | none => none
                        | some r12 =>
                          match takeDigitsAux 6 r12 with
                          | (fds, r13) =>
                            if fds.isEmpty || !r13.isEmpty then none else
                            let y := digitsToNat yds
                            let mo := digitsToNat mds
                            let d := dval
                            let h := digitsToNat hds
                            let mi := digitsToNat mids
                            let se := digitsToNat sds
                            let f := digitsToNat fds * 10 ^ (6 - fds.length)
                            if 1 ≤ y ∧ 1 ≤ mo ∧ mo ≤ 12 ∧ 1 ≤ d ∧
                               d ≤ daysInMonth y mo ∧ h ≤ 23 ∧ mi ≤ 59 ∧ se ≤ 59 then
                              some ⟨y, mo, d, h, mi, se, f⟩
                            else none

/-- Value of one base64 alphabet character, none for any other
character. -/
def b64val (c : Char) : Option Nat :=
  if 65 ≤ c.toNat ∧ c.toNat ≤ 90 then some (c.toNat - 65)
  else if 97 ≤ c.toNat ∧ c.toNat ≤ 122 then some (c.toNat - 97 + 26)
  else if 48 ≤ c.toNat ∧ c.toNat ≤ 57 then some (c.toNat - 48 + 52)
  else if c == '+' then some 62
  else if c == '/' then some 63
  else none

/-- The loop of binascii a2b_base64 in its default lenient mode, which
`base64.b64decode` calls: the arguments after the input are the current
position within a quad of 6-bit values, the bits left over from the
previous value, the count of pad characters seen at the current quad,
and the bytes produced so far, newest first.  A character outside the
alphabet is skipped; a pad character before quad position 2 is
ignored, and at position 2 or 3 it counts toward completing the quad,
a completed pad sequence ending the decode with whatever remains of
the input ignored; a data character resets the pad count.  At the end
of the input an unfinished quad raises: one leftover value gives the
invalid-length error, two or three give the incorrect-padding
error. -/
def a2bBase64 : List Char → Nat → Nat → Nat → List Nat → Except String (List Nat)
  | [], 0, _, _, acc => .ok acc.reverse
  | [], 1, _, _, _ =>
    .error "Invalid base64-encoded string: number of data characters cannot be 1 more than a multiple of 4"
  | [], _, _, _, _ => .error "Incorrect padding"
  | c :: rest, quad_pos, leftchar, pads, acc =>
    if c == '=' then
      if 2 ≤ quad_pos then
        if 4 ≤ quad_pos + (pads + 1) then .ok acc.reverse
        else a2bBase64 rest quad_pos leftchar (pads + 1) acc
      else a2bBase64 rest quad_pos leftchar pads acc
    else
      match b64val c with
      | none => a2bBase64 rest quad_pos leftchar pads acc
      | some v =>
        match quad_pos with
        | 0 => a2bBase64 rest 1 v 0 acc
        | 1 => a2bBase64 rest 2 (v % 16) 0 ((leftchar * 4 + v / 16) :: acc)
        | 2 => a2bBase64 rest 3 (v % 4) 0 ((leftchar * 16 + v / 4) :: acc)
        | _ => a2bBase64 rest 0 0 0 ((leftchar * 64 + v) :: acc)

/-- Embedding of `base64.b64decode` in its default lenient mode, as the
a2b_base64 loop above computes it. -/
def b64decode (s : String) : Except String (List Nat) :=
  a2bBase64 s.data 0 0 0 []

deriving instance DecidableEq for Except

/-- Row of the `organizations` table. -/
structure Org where
  orgid : Int
  orgname : String
  shortname : String
  address : String
  phone : String
  email : String
  deriving DecidableEq

/-- Row of the `employees` table. -/
structure Employee where
  empid : Int
  orgid : Int
  empname : String
  empshortname : String
  empphone : String
  empemail : String
  deriving DecidableEq

/-- Row of the `clients` table. -/
structure Client where
  clientid : Int
  orgid : Int
  clientname : String
  clientshortname : String
  clientphone : String
  clientemail : String
  deriving DecidableEq

/-- Row of the `notes` table; `audionotes` is a nullable byte column. -/
structure Note where
  orgid : Int
  empid : Int
  clientid : Int
  meetingid : Nat
  dtime : DT
  audionotes : Option (List Nat)
  textnotes : String
  deriving DecidableEq

/-- Row of the `otps` table; `key` is the primary key and `created_at`
is in seconds. -/
structure OtpRow where
  key : String
  otp : String
  created_at : Nat
  deriving DecidableEq

/-- The whole database state; `notes_seq` is the next value the
`notes_seq` sequence will hand out. -/
structure DB where
  organizations : List Org
  employees : List Employee
  clients : List Client
  notes : List Note
  notes_seq : Nat
  otps : List OtpRow
  deriving DecidableEq

/-- The OTP composite key built by the handlers. -/
def otpKey (orgid empid : Int) : String :=
  toString orgid ++ "-" ++ toString empid

/-- SQL `INSERT ... ON CONFLICT (key) DO UPDATE` on the `otps` table:
replace the row holding the key (the primary key, so at most one row
holds it) or append a new row. -/
def upsertOtp : List OtpRow → String → String → Nat → List OtpRow
  | [], k, o, t => [⟨k, o, t⟩]
  | r :: rs, k, o, t =>
    if r.key == k then ⟨k, o, t⟩ :: rs else r :: upsertOtp rs k o t

/-- SQL `DELETE FROM otps WHERE key = k`. -/
def deleteOtp (l : List OtpRow) (k : String) : List OtpRow :=
  l.filter (fun r => !(r.key == k))

/-- SQL `SELECT otp, created_at FROM otps WHERE key = k` (one row or
none). -/
def findOtp (l : List OtpRow) (k : String) : Option OtpRow :=
  l.find? (fun r => r.key == k)

/-- SQL `SELECT empemail FROM employees WHERE orgid = o AND empid = e`.
An empty string stands for a missing email (both are falsy where the
handler checks it). -/
def findEmployee (db : DB) (orgid empid : Int) : Option Employee :=
  db.employees.find? (fun e => e.orgid == orgid && e.empid == empid)

/-- SQL `SELECT MAX(clientid) FROM clients WHERE orgid = o`, which is
NULL when the organization has no clients. -/
def maxClientId : List Client → Int → Option Int
  | [], _ => none
  | c :: rest, orgid =>
    let r := maxClientId rest orgid
    if c.orgid == orgid then
      match r with
      | none => some c.clientid
      | some m => some (max c.clientid m)
    else r

/-- The WHERE clause of the `update_note` UPDATE statement. -/
def noteMatches (n : Note) (orgid empid clientid : Int) (dt : DT) : Bool :=
  n.orgid == orgid && n.empid == empid && n.clientid == clientid && n.dtime == dt

/-- A JSON response body produced by a handler; a clients row is
ClientID, ClientName and ClientShortname, a notes row is DateTime,
TextNotes and the nullable base64 AudioNotes. -/
inductive Body where
  | error (msg : String)
  | message (msg : String)
  | validated (msg : String) (orgId empId : Int)
  | clientCreated (msg : String) (clientId : Int)
  | clients (rows : List (Int × String × String))
  | notes (rows : List (String × String × Option String))
  deriving DecidableEq

/-- An HTTP response: status code and body. -/
structure Resp where
  status : Nat
  body : Body
  deriving DecidableEq

/-- The 500 response the catch-all exception handler of every endpoint
produces. -/
def unexpectedError (e : String) : Resp :=
  ⟨500, .error ("Unexpected error: " ++ e)⟩

/-- Handler of POST request-otp.  `drawn` is the value of
`random.randint(1000, 9999)`, `now` is `datetime.utcnow()` in seconds,
`emailConfigured` is whether both Gmail environment variables are set
and `sendOk` is the outcome of `send_otp_email`. -/
def request_otp (db : DB) (orgIdV empIdV : JVal) (drawn now : Nat)
    (emailConfigured sendOk : Bool) : Resp × DB :=
  match pyInt orgIdV with
  | .error e => (unexpectedError e, db)
  | .ok orgid =>
    match pyInt empIdV with
    | .error e => (unexpectedError e, db)
    | .ok empid =>
      if orgid == 0 || empid == 0 then
        (⟨400, .error "orgid and empid are required"⟩, db)
      else
        match findEmployee db orgid empid with
        | none => (⟨404, .error "No employee found with this orgid and empid"⟩, db)
        | some emp =>
          if emp.empemail == "" then
            (⟨400, .error "Employee email not found"⟩, db)
          else
            let otp := toString drawn
            let key := otpKey orgid empid
            let db1 : DB := { db with otps := upsertOtp db.otps key otp now }
            if emailConfigured then
              if sendOk then
                (⟨200, .message "OTP sent to your registered email address"⟩, db1)
              else
                (⟨200, .message "Failed to send OTP via email. Check the server logs for the OTP."⟩, db1)
            else
              (⟨200, .message "Email service not configured. Check the server logs for the OTP."⟩, db1)

/-- Handler of POST validate-otp.  `now` is `datetime.utcnow()` in
seconds; the 5-minute expiry threshold is 300 seconds. -/
def validate_otp (db : DB) (orgIdV empIdV otpV : JVal) (now : Nat) : Resp × DB :=
  match pyInt orgIdV with
  | .error e => (unexpectedError e, db)
  | .ok orgid =>
    match pyInt empIdV with
    | .error e => (unexpectedError e, db)
    | .ok empid =>
      if orgid == 0 || empid == 0 || !pyTruthy otpV then
        (⟨400, .error "orgid, empid, and OTP are required"⟩, db)
      else
        let key := otpKey orgid empid
        match findOtp db.otps key with
        | none => (⟨400, .error "OTP not found or expired"⟩, db)
        | some row =>
          if 300 < now - row.created_at then
            (⟨400, .error "OTP expired"⟩, { db with otps := deleteOtp db.otps key })
          else if !pyEqStr row.otp otpV then
            (⟨400, .error "Invalid OTP"⟩, db)
          else
            (⟨200, .validated "OTP validated successfully" orgid empid⟩,
             { db with otps := deleteOtp db.otps key })

/-- Handler of POST register.  The nine string fields are the request
values, with the empty string standing for an absent field (both are
falsy where the handler checks them). -/
def register (db : DB) (orgIdV empIdV : JVal)
    (orgname shortname address phone email : String)
    (empname empshortname empphone empemail : String) : Resp × DB :=
  match pyInt orgIdV with
  | .error e => (unexpectedError e, db)
  | .ok orgid =>
    match pyInt empIdV with
    | .error e => (unexpectedError e, db)
    | .ok empid =>
      if orgid == 0 || orgname == "" || shortname == "" || address == "" ||
         phone == "" || email == "" || empid == 0 || empname == "" ||
         empshortname == "" || empphone == "" || empemail == "" then
        (⟨400, .error "All fields are required"⟩, db)
      else
        let orgExists := db.organizations.any (fun o => o.orgid == orgid)
        if db.employees.any (fun e => e.orgid == orgid && e.empid == empid) then
          (⟨400, .error "Employee with this empid already exists in this organization"⟩, db)
        else
          let orgs1 :=
            if orgExists then db.organizations
            else db.organizations ++ [⟨orgid, orgname, shortname, address, phone, email⟩]
          (⟨200, .message "Registration successful"⟩,
           { db with
               organizations := orgs1,
               employees := db.employees ++
                 [⟨empid, orgid, empname, empshortname, empphone, empemail⟩] })

/-- Handler of POST register-client.  `clientPhoneV` is the raw request
field, `data.get` defaulting it to NA when absent. -/
def register_client (db : DB) (orgIdV : JVal)
    (clientname clientshortname : String) (clientPhoneV : Option String)
    (clientemail : String) : Resp × DB :=
  match pyInt orgIdV with
  | .error e => (unexpectedError e, db)
  | .ok orgid =>
    let clientphone := clientPhoneV.getD "NA"
    if orgid == 0 || clientname == "" || clientemail == "" then
      (⟨400, .error "orgid, clientname, and clientemail are required"⟩, db)
    else if !db.organizations.any (fun o => o.orgid == orgid) then
      (⟨404, .error "Organization not found"⟩, db)
    else
      let new_clientid := pyOrZero (maxClientId db.clients orgid) + 1
      if db.clients.any (fun c => c.orgid == orgid && c.clientid == new_clientid) then
        (⟨400, .error "Client with this clientid already exists in this organization"⟩, db)
      else
        (⟨200, .clientCreated "Client registered successfully" new_clientid⟩,
         { db with clients := db.clients ++
             [⟨new_clientid, orgid, clientname, clientshortname, clientphone, clientemail⟩] })

/-- Handler of POST fetch-clients. -/
def fetch_clients (db : DB) (orgIdV : JVal) : Resp × DB :=
  match pyInt orgIdV with
  | .error e => (unexpectedError e, db)
  | .ok orgid =>
    if orgid == 0 then
      (⟨400, .error "orgid is required"⟩, db)
    else
      (⟨200, .clients ((db.clients.filter (fun c => c.orgid == orgid)).map
         (fun c => (c.clientid, c.clientname, c.clientshortname)))⟩, db)

/-- Handler of POST save-transcription.  `audioData` is the raw request
field (absent or a string) and `now` is `datetime.utcnow()`.  The
insert stores NULL whenever the decoded audio is falsy, mirroring the
conditional wrapping of the bytes for the statement parameter. -/
def save_transcription (db : DB) (orgIdV empIdV clientIdV : JVal)
    (transcriptiontext : String) (audioData : Option String) (now : DT) :
    Resp × DB :=
  match pyInt orgIdV with
  | .error e => (unexpectedError e, db)
  | .ok orgid =>
    match pyInt empIdV with
    | .error e => (unexpectedError e, db)
    | .ok empid =>
      match pyInt clientIdV with
      | .error e => (unexpectedError e, db)
      | .ok clientid =>
        if orgid == 0 || empid == 0 || clientid == 0 || transcriptiontext == "" then
          (⟨400, .error "orgid, empid, clientid, and transcriptiontext are required"⟩, db)
        else if !db.clients.any (fun c => c.orgid == orgid && c.clientid == clientid) then
          (⟨404, .error "Invalid clientid for this organization"⟩, db)
        else
          let decoded : Except String (Option (List Nat)) :=
            match audioData with
            | none => .ok none
            | some s =>
              if s == "" then .ok none
              else
                match b64decode s with
                | .error e => .error e
                | .ok bytes => .ok (some bytes)
          match decoded with
          | .error e => (unexpectedError e, db)
          | .ok audio_binary =>
            let stored : Option (List Nat) :=
              match audio_binary with
              | some bs => if bs.isEmpty then none else some bs
              | none => none
            (⟨200, .message "Transcription saved successfully"⟩,
             { db with
                 notes := db.notes ++
                   [⟨orgid, empid, clientid, db.notes_seq, now, stored, transcriptiontext⟩],
                 notes_seq := db.notes_seq + 1 })

/-- Lexicographic order on timestamps, the order the database sorts
the timestamp column by. -/
def dtLe (a b : DT) : Bool :=
  if a.year ≠ b.year then decide (a.year < b.year)
  else if a.month ≠ b.month then decide (a.month < b.month)
  else if a.day ≠ b.day then decide (a.day < b.day)
  else if a.hour ≠ b.hour then decide (a.hour < b.hour)
  else if a.minute ≠ b.minute then decide (a.minute < b.minute)
  else if a.second ≠ b.second then decide (a.second < b.second)
  else decide (a.microsecond ≤ b.microsecond)

/-- Insert one note into a list already sorted by timestamp
descending. -/
def insertNoteDesc (n : Note) : List Note → List Note
  | [] => [n]
  | m :: ms => if dtLe m.dtime n.dtime then n :: m :: ms else m :: insertNoteDesc n ms

/-- SQL `ORDER BY datetime DESC`; rows with equal timestamps come in
no specified order, the model keeping one fixed arrangement. -/
def sortNotesDesc : List Note → List Note
  | [] => []
  | n :: ns => insertNoteDesc n (sortNotesDesc ns)

/-- Zero-pad a number to two digits, as the two-digit strftime
directives do. -/
def pad2 (n : Nat) : String :=
  if n < 10 then "0" ++ toString n else toString n

/-- Zero-pad the microseconds to six digits, as the fractional
strftime directive does. -/
def pad6 (n : Nat) : String :=
  String.mk (List.replicate (6 - (toString n).length) '0') ++ toString n

/-- Embedding of `strftime` for the output format the code uses: the
year unpadded, the two-digit fields zero-padded, the microseconds
zero-padded to six digits. -/
def strftime6 (d : DT) : String :=
  toString d.year ++ "-" ++ pad2 d.month ++ "-" ++ pad2 d.day ++ "T" ++
    pad2 d.hour ++ ":" ++ pad2 d.minute ++ ":" ++ pad2 d.second ++ "." ++
    pad6 d.microsecond

/-- The base64 alphabet character of a 6-bit value. -/
def b64chr (n : Nat) : Char :=
  "ABCDEFGHIJKLMNOPQRSTUVWXYZabcdefghijklmnopqrstuvwxyz0123456789+/".data.getD n 'A'

/-- Standard base64 encoding of a byte list: three bytes to four
characters, the truncated final group padded with the pad
character. -/
def b64encodeList : List Nat → List Char
  | a :: b :: c :: rest =>
    b64chr (a / 4) :: b64chr ((a % 4) * 16 + b / 16) ::
      b64chr ((b % 16) * 4 + c / 64) :: b64chr (c % 64) :: b64encodeList rest
  | [a, b] => [b64chr (a / 4), b64chr ((a % 4) * 16 + b / 16), b64chr ((b % 16) * 4), '=']
  | [a] => [b64chr (a / 4), b64chr ((a % 4) * 16), '=', '=']
  | [] => []

/-- Embedding of `base64.b64encode` followed by the utf-8 decode the
code applies to it. -/
def b64encode (bs : List Nat) : String :=
  String.mk (b64encodeList bs)

/-- The database's cast of the selectedDate string parameter to a DATE
for the `DATE(datetime) = s` comparison, modelled for ISO
year-month-day text: exactly four year digits, one or two month and
day digits, a valid calendar date.  Text the cast rejects surfaces as
a raised statement error; the engine, an external capability, accepts
further date spellings that the model treats the same way. -/
def castDateStr (s : String) : Option (Nat × Nat × Nat) :=
  match takeDigitsAux 4 s.data with
  | (yds, r1) =>
    if yds.length ≠ 4 then none else
    match expectChar '-' r1 with
    | none => none
    | some r2 =>
      match takeDigitsAux 2 r2 with
      | (mds, r3) =>
        if mds.isEmpty then none else
        match expectChar '-' r3 with
        | none => none
        | some r4 =>
          match takeDigitsAux 2 r4 with
          | (dds, r5) =>
            if dds.isEmpty ∨ ¬ r5.isEmpty then none else
            let y := digitsToNat yds
            let mo := digitsToNat mds
            let d := digitsToNat dds
            if 1 ≤ mo ∧ mo ≤ 12 ∧ 1 ≤ d ∧ d ≤ daysInMonth y mo then
              some (y, mo, d)
            else none

/-- Handler of POST fetch-notes.  `selectedDateV` is the raw optional
request field; when truthy it is handed to the database for the
date-only comparison, a failing cast raising through the catch-all
handler.  Output rows carry the formatted timestamp and the base64 of
the audio when it is truthy, null otherwise. -/
def fetch_notes (db : DB) (orgIdV empIdV clientIdV selectedDateV : JVal) : Resp × DB :=
  match pyInt orgIdV with
  | .error e => (unexpectedError e, db)
  | .ok orgid =>
    match pyInt empIdV with
    | .error e => (unexpectedError e, db)
    | .ok empid =>
      match pyInt clientIdV with
      | .error e => (unexpectedError e, db)
      | .ok clientid =>
        if orgid == 0 || empid == 0 || clientid == 0 then
          (⟨400, .error "orgid, empid, and clientid are required"⟩, db)
        else
          let base := db.notes.filter (fun n =>
            n.orgid == orgid && n.empid == empid && n.clientid == clientid)
          let filtered : Except String (List Note) :=
            if pyTruthy selectedDateV then
              match selectedDateV with
              | .jstr s =>
                match castDateStr s with
                | some (y, mo, d) => .ok (base.filter (fun n =>
                    n.dtime.year == y && n.dtime.month == mo && n.dtime.day == d))
                | none => .error "invalid value for parameter selectedDate"
              | _ => .error "invalid value for parameter selectedDate"
            else .ok base
          match filtered with
          | .error e => (unexpectedError e, db)
          | .ok ns =>
            (⟨200, .notes ((sortNotesDesc ns).map (fun n =>
               (strftime6 n.dtime, n.textnotes,
                match n.audionotes with
                | some bs => if bs.isEmpty then none else some (b64encode bs)
                | none => none)))⟩, db)

/-- Handler of POST update-note.  `dateTime` and `newText` are the raw
string fields, the empty string standing for an absent field. -/
def update_note (db : DB) (orgIdV empIdV clientIdV : JVal)
    (dateTime newText : String) : Resp × DB :=
  match pyInt orgIdV with
  | .error e => (unexpectedError e, db)
  | .ok orgid =>
    match pyInt empIdV with
    | .error e => (unexpectedError e, db)
    | .ok empid =>
      match pyInt clientIdV with
      | .error e => (unexpectedError e, db)
      | .ok clientid =>
        if orgid == 0 || empid == 0 || clientid == 0 || dateTime == "" ||
           newText == "" then
          (⟨400, .error "orgid, empid, clientid, dateTime, and newText are required"⟩, db)
        else
          match strptime6 dateTime with
          | none => (unexpectedError "time data does not match format", db)
          | some dt =>
            let rowcount := db.notes.countP (fun n => noteMatches n orgid empid clientid dt)
            if rowcount == 0 then
              (⟨404, .error "No matching note found to update"⟩, db)
            else
              (⟨200, .message "Transcription updated successfully"⟩,
               { db with
                   notes := db.notes.map (fun n =>
                     if noteMatches n orgid empid clientid dt then
                       { n with textnotes := newText }
                     else n) })

/-! Helper lemmas about the table operations. -/

theorem findOtp_upsertOtp_self (l : List OtpRow) (k o : String) (t : Nat) :
    findOtp (upsertOtp l k o t) k = some ⟨k, o, t⟩ := by
  induction l with
  | nil => simp [findOtp, upsertOtp, List.find?]
  | cons r rs ih =>
    by_cases h : r.key = k
    · simp [findOtp, upsertOtp, h, List.find?]
    · have hb : (r.key == k) = false := beq_eq_false_iff_ne.mpr h
      simpa [findOtp, upsertOtp, hb, List.find?] using ih

theorem findOtp_deleteOtp_self (l : List OtpRow) (k : String) :
    findOtp (deleteOtp l k) k = none := by
  induction l with
  | nil => simp [findOtp, deleteOtp]
  | cons r rs ih =>
    by_cases h : r.key = k
    · simp only [findOtp, deleteOtp] at ih ⊢
      simp [h, ih]
    · have hb : (r.key == k) = false := beq_eq_false_iff_ne.mpr h
      simp only [findOtp, deleteOtp] at ih ⊢
      simp [hb, List.find?, ih]

theorem countP_upsertOtp (l : List OtpRow) (k o : String) (t : Nat)
    (h : l.countP (fun x => x.key == k) ≤ 1) :
    (upsertOtp l k o t).countP (fun x => x.key == k) = 1 := by
  induction l with
  | nil => simp [upsertOtp, List.countP_cons]
  | cons a rs ih =>
    by_cases hk : a.key = k
    · have hb : (a.key == k) = true := beq_iff_eq.mpr hk
      have hcc : (a :: rs).countP (fun x => x.key == k) =
          rs.countP (fun x => x.key == k) + 1 := by
        simp [List.countP_cons, hb]
      have h0 : rs.countP (fun x => x.key == k) = 0 := by omega
      simp [upsertOtp, hb, List.countP_cons, h0]
    · have hb : (a.key == k) = false := beq_eq_false_iff_ne.mpr hk
      have h1 : rs.countP (fun x => x.key == k) ≤ 1 := by
        have hcc : (a :: rs).countP (fun x => x.key == k) =
            rs.countP (fun x => x.key == k) := by
          simp [List.countP_cons, hb]
        omega
      simp [upsertOtp, hb, List.countP_cons, ih h1]

theorem maxClientId_none (orgid : Int) :
    ∀ (l : List Client), maxClientId l orgid = none →
      ∀ c ∈ l, c.orgid ≠ orgid := by
  intro l
  induction l with
  | nil => intro _ c hc; simp at hc
  | cons a rs ih =>
    intro h x hx
    by_cases hc : a.orgid = orgid
    · exfalso
      have hb : (a.orgid == orgid) = true := beq_iff_eq.mpr hc
      rcases hrec : maxClientId rs orgid with _ | m0 <;>
        simp [maxClientId, hrec, hb] at h
    · have hb : (a.orgid == orgid) = false := beq_eq_false_iff_ne.mpr hc
      simp only [maxClientId, hb, Bool.false_eq_true, if_false] at h
      rcases List.mem_cons.mp hx with rfl | hmem
      · exact hc
      · exact ih h x hmem

theorem maxClientId_le (orgid : Int) :
    ∀ (l : List Client) (m : Int), maxClientId l orgid = some m →
      ∀ c ∈ l, c.orgid = orgid → c.clientid ≤ m := by
  intro l
  induction l with
  | nil => intro m h; simp [maxClientId] at h
  | cons a rs ih =>
    intro m h x hx hxorg
    by_cases hc : a.orgid = orgid
    · have hb : (a.orgid == orgid) = true := beq_iff_eq.mpr hc
      rcases hrec : maxClientId rs orgid with _ | m0
      · simp only [maxClientId, hrec, hb, if_true] at h
        rcases List.mem_cons.mp hx with rfl | hmem
        · simp only [Option.some.injEq] at h
          omega
        · exact absurd hxorg (maxClientId_none orgid rs hrec x hmem)
      · simp only [maxClientId, hrec, hb, if_true] at h
        simp only [Option.some.injEq] at h
        rcases List.mem_cons.mp hx with rfl | hmem
        · rw [← h]
          exact le_max_left _ _
        · have hx0 := ih m0 hrec x hmem hxorg
          rw [← h]
          exact le_trans hx0 (le_max_right _ _)
    · have hb : (a.orgid == orgid) = false := beq_eq_false_iff_ne.mpr hc
      simp only [maxClientId, hb, Bool.false_eq_true, if_false] at h
      rcases List.mem_cons.mp hx with rfl | hmem
      · exact absurd hxorg hc
      · exact ih m h x hmem hxorg

theorem maxClientId_attained (orgid : Int) :
    ∀ (l : List Client) (m : Int), maxClientId l orgid = some m →
      ∃ c ∈ l, c.orgid = orgid ∧ c.clientid = m := by
  intro l
  induction l with
  | nil => intro m h; simp [maxClientId] at h
  | cons a rs ih =>
    intro m h
    by_cases hc : a.orgid = orgid
    · have hb : (a.orgid == orgid) = true := beq_iff_eq.mpr hc
      rcases hrec : maxClientId rs orgid with _ | m0
      · simp only [maxClientId, hrec, hb, if_true, Option.some.injEq] at h
        exact ⟨a, List.mem_cons_self a rs, hc, h⟩
      · simp only [maxClientId, hrec, hb, if_true, Option.some.injEq] at h
        by_cases hcmp : m0 ≤ a.clientid
        · refine ⟨a, List.mem_cons_self a rs, hc, ?_⟩
          rw [← h]
          exact (max_eq_left hcmp).symm
        · obtain ⟨c, hcm, hco, hcid⟩ := ih m0 hrec
          refine ⟨c, List.mem_cons_of_mem a hcm, hco, ?_⟩
          rw [hcid, ← h]
          exact (max_eq_right (le_of_not_le hcmp)).symm
    · have hb : (a.orgid == orgid) = false := beq_eq_false_iff_ne.mpr hc
      simp only [maxClientId, hb, Bool.false_eq_true, if_false] at h
      obtain ⟨c, hcm, hco, hcid⟩ := ih m h
      exact ⟨c, List.mem_cons_of_mem a hcm, hco, hcid⟩

theorem nextClientId_not_present (l : List Client) (orgid : Int) :
    l.any (fun c => c.orgid == orgid &&
      c.clientid == pyOrZero (maxClientId l orgid) + 1) = false := by
  rw [List.any_eq_false]
  intro c hc
  rcases hrec : maxClientId l orgid with _ | m0
  · have := maxClientId_none orgid l hrec c hc
    simp [this]
  · have hm : pyOrZero (some m0) = m0 := by
      by_cases h0 : m0 = 0 <;> simp [pyOrZero, h0]
    intro hcontra
    simp only [hrec, hm, Bool.and_eq_true, beq_iff_eq] at hcontra
    have := maxClientId_le orgid l m0 hrec c hc hcontra.1
    omega

theorem toDigitsCore_length_lt (b : Nat) :
    ∀ (f n : Nat) (l : List Char),
      l.length < (Nat.toDigitsCore b (f + 1) n l).length := by
  intro f
  induction f with
  | zero =>
    intro n l
    simp only [Nat.toDigitsCore]
    split <;> simp
  | succ f ih =>
    intro n l
    simp only [Nat.toDigitsCore]
    split
    · simp
    · exact lt_trans (by simp) (ih (n / b) (Nat.digitChar (n % b) :: l))

/-- The decimal rendering of a natural number is never the empty
string (needed because the handlers build the OTP string and the
composite key with string formatting). -/
theorem natToString_ne_empty (n : Nat) : toString n ≠ "" := by
  intro h
  have hd : (Nat.toDigits 10 n).length = 0 := by
    have h2 : (toString n).data = Nat.toDigits 10 n := rfl
    rw [h] at h2
    have h3 : Nat.toDigits 10 n = ([] : List Char) := h2.symm
    simp [h3]
  have := toDigitsCore_length_lt 10 n n []
  simp only [Nat.toDigits] at hd
  omega

/-- On the happy path (existing employee with an email on file), the
state after `request_otp` is the input state with the OTP row for the
composite key upserted, for every email outcome. -/
theorem request_otp_state
    (db : DB) (orgid empid : Int) (drawn now : Nat) (cfg sOk : Bool) (emp : Employee)
    (horg : orgid ≠ 0) (hemp : empid ≠ 0)
    (hfind : findEmployee db orgid empid = some emp)
    (hmail : emp.empemail ≠ "") :
    (request_otp db (.jint orgid) (.jint empid) drawn now cfg sOk).2 =
      { db with otps := upsertOtp db.otps (otpKey orgid empid) (toString drawn) now } := by
  have h0 : (orgid == 0) = false := beq_eq_false_iff_ne.mpr horg
  have h1 : (empid == 0) = false := beq_eq_false_iff_ne.mpr hemp
  have h2 : (emp.empemail == "") = false := beq_eq_false_iff_ne.mpr hmail
  cases cfg <;> cases sOk <;> simp [request_otp, pyInt, h0, h1, hfind, h2]

/-- Shorthand for the fact that a nonzero id compares false against 0
under boolean equality. -/
theorem beq_zero_false {n : Int} (h : n ≠ 0) : (n == 0) = false :=
  beq_eq_false_iff_ne.mpr h

/-- Claim C1: for every valid organization and employee pair,
RequestOTP followed immediately by ValidateOTP with the stored code
succeeds (status 200, body carrying the ids), deletes the OTP record,
and a second ValidateOTP for the same key with the same code then takes
the not-found branch (the error reading OTP not found or expired),
leaving the state unchanged. -/
theorem C1_request_validate_single_use
    (db : DB) (orgid empid : Int) (drawn now : Nat) (cfg sOk : Bool) (emp : Employee)
    (horg : orgid ≠ 0) (hemp : empid ≠ 0)
    (hfind : findEmployee db orgid empid = some emp)
    (hmail : emp.empemail ≠ "") :
    validate_otp (request_otp db (.jint orgid) (.jint empid) drawn now cfg sOk).2
        (.jint orgid) (.jint empid) (.jstr (toString drawn)) now =
      (⟨200, .validated "OTP validated successfully" orgid empid⟩,
       { db with otps := deleteOtp (upsertOtp db.otps (otpKey orgid empid) (toString drawn) now) (otpKey orgid empid) }) ∧
    findOtp (deleteOtp (upsertOtp db.otps (otpKey orgid empid) (toString drawn) now)
        (otpKey orgid empid)) (otpKey orgid empid) = none ∧
    validate_otp
        { db with otps := deleteOtp (upsertOtp db.otps (otpKey orgid empid) (toString drawn) now) (otpKey orgid empid) }
        (.jint orgid) (.jint empid) (.jstr (toString drawn)) now =
      (⟨400, .error "OTP not found or expired"⟩,
       { db with otps := deleteOtp (upsertOtp db.otps (otpKey orgid empid) (toString drawn) now) (otpKey orgid empid) }) := by
  have h0 : (orgid == 0) = false := beq_zero_false horg
  have h1 : (empid == 0) = false := beq_zero_false hemp
  have hs : (toString drawn == "") = false :=
    beq_eq_false_iff_ne.mpr (natToString_ne_empty drawn)
  rw [request_otp_state db orgid empid drawn now cfg sOk emp horg hemp hfind hmail]
  have hfound := findOtp_upsertOtp_self db.otps (otpKey orgid empid) (toString drawn) now
  have hgone := findOtp_deleteOtp_self
    (upsertOtp db.otps (otpKey orgid empid) (toString drawn) now) (otpKey orgid empid)
  refine ⟨?_, hgone, ?_⟩
  · simp [validate_otp, pyInt, pyTruthy, h0, h1, hs, hfound, pyEqStr, deleteOtp,
      natToString_ne_empty drawn]
  · simp [validate_otp, pyInt, pyTruthy, h0, h1, hs, hgone, natToString_ne_empty drawn]

/-- A concrete employee used by the witnesses. -/
def wEmp : Employee := ⟨7, 1, "Bob", "B", "123", "bob@x"⟩

/-- A concrete note used by the witnesses. -/
def wNote : Note := ⟨1, 7, 3, 5, ⟨2024, 3, 5, 10, 20, 30, 123456⟩, none, "old"⟩

/-- A concrete database used by the witnesses: one organization, one
employee, one client, one note, no OTP rows. -/
def wDb : DB := ⟨[⟨1, "Org", "O", "addr", "ph", "em"⟩], [wEmp],
  [⟨3, 1, "Acme", "ACM", "NA", "c@x"⟩], [wNote], 6, []⟩

/-- Witness for C1 at a concrete state and input. -/
theorem C1_witness :
    validate_otp (request_otp wDb (.jint 1) (.jint 7) 5555 100 true true).2
        (.jint 1) (.jint 7) (.jstr (toString 5555)) 100 =
      (⟨200, .validated "OTP validated successfully" 1 7⟩,
       { wDb with otps := deleteOtp (upsertOtp wDb.otps (otpKey 1 7) (toString 5555) 100) (otpKey 1 7) }) ∧
    findOtp (deleteOtp (upsertOtp wDb.otps (otpKey 1 7) (toString 5555) 100)
        (otpKey 1 7)) (otpKey 1 7) = none ∧
    validate_otp
        { wDb with otps := deleteOtp (upsertOtp wDb.otps (otpKey 1 7) (toString 5555) 100) (otpKey 1 7) }
        (.jint 1) (.jint 7) (.jstr (toString 5555)) 100 =
      (⟨400, .error "OTP not found or expired"⟩,
       { wDb with otps := deleteOtp (upsertOtp wDb.otps (otpKey 1 7) (toString 5555) 100) (otpKey 1 7) }) :=
  C1_request_validate_single_use wDb 1 7 5555 100 true true wEmp
    (by decide) (by decide) rfl (by decide)

/-- Claim C2: for every OTP record whose creation time is more than 5
minutes (300 seconds) before the validation time, ValidateOTP fails
with the expired error and deletes the record, so a subsequent
ValidateOTP for the same key takes the not-found branch rather than
the expired one. -/
theorem C2_expired_deletes_then_not_found
    (db : DB) (orgid empid : Int) (row : OtpRow) (sub : JVal) (now : Nat)
    (horg : orgid ≠ 0) (hemp : empid ≠ 0) (hsub : pyTruthy sub = true)
    (hrow : findOtp db.otps (otpKey orgid empid) = some row)
    (hold : row.created_at + 300 < now) :
    validate_otp db (.jint orgid) (.jint empid) sub now =
      (⟨400, .error "OTP expired"⟩, { db with otps := deleteOtp db.otps (otpKey orgid empid) }) ∧
    findOtp (deleteOtp db.otps (otpKey orgid empid)) (otpKey orgid empid) = none ∧
    validate_otp { db with otps := deleteOtp db.otps (otpKey orgid empid) }
        (.jint orgid) (.jint empid) sub now =
      (⟨400, .error "OTP not found or expired"⟩,
       { db with otps := deleteOtp db.otps (otpKey orgid empid) }) := by
  have h0 : (orgid == 0) = false := beq_zero_false horg
  have h1 : (empid == 0) = false := beq_zero_false hemp
  have hexp : 300 < now - row.created_at := by omega
  have hgone := findOtp_deleteOtp_self db.otps (otpKey orgid empid)
  refine ⟨?_, hgone, ?_⟩
  · simp [validate_otp, pyInt, h0, h1, hsub, hrow, hexp]
  · simp [validate_otp, pyInt, h0, h1, hsub, hgone]

/-- A concrete database holding one pending OTP row for the composite
key of organization 1 and employee 7, created at time 100. -/
def wDbOtp : DB := { wDb with otps := [⟨otpKey 1 7, "1234", 100⟩] }

/-- Witness for C2: the OTP created at time 100 is expired at time 401
and the replay then hits the not-found branch. -/
theorem C2_witness :
    validate_otp wDbOtp (.jint 1) (.jint 7) (.jstr "1234") 401 =
      (⟨400, .error "OTP expired"⟩, { wDbOtp with otps := deleteOtp wDbOtp.otps (otpKey 1 7) }) ∧
    findOtp (deleteOtp wDbOtp.otps (otpKey 1 7)) (otpKey 1 7) = none ∧
    validate_otp { wDbOtp with otps := deleteOtp wDbOtp.otps (otpKey 1 7) }
        (.jint 1) (.jint 7) (.jstr "1234") 401 =
      (⟨400, .error "OTP not found or expired"⟩,
       { wDbOtp with otps := deleteOtp wDbOtp.otps (otpKey 1 7) }) :=
  C2_expired_deletes_then_not_found wDbOtp 1 7 ⟨otpKey 1 7, "1234", 100⟩ (.jstr "1234") 401
    (by decide) (by decide) (by decide) rfl (by decide)

/-- Claim C4: for every unexpired OTP record, ValidateOTP with a
submitted code unequal to the stored code fails with the mismatch error
and leaves the state unchanged, and a following ValidateOTP with the
correct code while still unexpired succeeds. -/
theorem C4_mismatch_keeps_record
    (db : DB) (orgid empid : Int) (row : OtpRow) (sub : JVal) (now now2 : Nat)
    (horg : orgid ≠ 0) (hemp : empid ≠ 0)
    (hrow : findOtp db.otps (otpKey orgid empid) = some row)
    (hfresh : now ≤ row.created_at + 300)
    (hsub : pyTruthy sub = true)
    (hwrong : pyEqStr row.otp sub = false)
    (hcode : row.otp ≠ "")
    (hfresh2 : now2 ≤ row.created_at + 300) :
    validate_otp db (.jint orgid) (.jint empid) sub now =
      (⟨400, .error "Invalid OTP"⟩, db) ∧
    validate_otp db (.jint orgid) (.jint empid) (.jstr row.otp) now2 =
      (⟨200, .validated "OTP validated successfully" orgid empid⟩,
       { db with otps := deleteOtp db.otps (otpKey orgid empid) }) := by
  have h0 : (orgid == 0) = false := beq_zero_false horg
  have h1 : (empid == 0) = false := beq_zero_false hemp
  have hnx : ¬ 300 < now - row.created_at := by omega
  have hnx2 : ¬ 300 < now2 - row.created_at := by omega
  have hcodeb : (row.otp == "") = false := beq_eq_false_iff_ne.mpr hcode
  constructor
  · simp [validate_otp, pyInt, h0, h1, hsub, hrow, hnx, hwrong]
  · simp [validate_otp, pyInt, pyTruthy, h0, h1, hcodeb, hcode, hrow, hnx2, pyEqStr]

/-- Witness for C4: the wrong code 9999 is rejected without deleting
the row and the right code 1234 still validates. -/
theorem C4_witness :
    validate_otp wDbOtp (.jint 1) (.jint 7) (.jstr "9999") 200 =
      (⟨400, .error "Invalid OTP"⟩, wDbOtp) ∧
    validate_otp wDbOtp (.jint 1) (.jint 7) (.jstr "1234") 200 =
      (⟨200, .validated "OTP validated successfully" 1 7⟩,
       { wDbOtp with otps := deleteOtp wDbOtp.otps (otpKey 1 7) }) :=
  C4_mismatch_keeps_record wDbOtp 1 7 ⟨otpKey 1 7, "1234", 100⟩ (.jstr "9999") 200 200
    (by decide) (by decide) rfl (by decide) (by decide) (by decide) (by decide) (by decide)

/-- A concrete database with an unconsumed, unexpired OTP 5555 pending
for organization 1, employee 7. -/
def c3Db : DB := { wDb with otps := [⟨otpKey 1 7, "5555", 100⟩] }

/-- Counterexample to C3 as stated: with the previous code 5555 pending
and unexpired, a RequestOTP whose fresh uniform draw from the range
1000 to 9999 happens to be 5555 again leaves the previous code able to
validate (the immediate ValidateOTP with it succeeds with status 200),
so the previous code is not invalidated in every case. -/
theorem C3_counterexample :
    (1000 ≤ 5555 ∧ 5555 ≤ 9999) ∧
    findOtp c3Db.otps (otpKey 1 7) = some ⟨otpKey 1 7, "5555", 100⟩ ∧
    (validate_otp (request_otp c3Db (.jint 1) (.jint 7) 5555 100 true true).2
      (.jint 1) (.jint 7) (.jstr "5555") 100).1 =
      ⟨200, .validated "OTP validated successfully" 1 7⟩ := by
  decide

/-- Claim C3 as amended: for every key and every prior OTP state,
RequestOTP for an existing employee with an email on file upserts the
single OTP record for the composite key with the freshly drawn code
and the current timestamp, and afterwards a submitted code validates
only if it equals the newly drawn code: any code differing from the
new draw, in particular a previous code that the draw did not
reproduce, fails with status 400 at every later time, even while the
new record is unexpired. -/
theorem C3_request_overwrites
    (db : DB) (orgid empid : Int) (drawn now : Nat) (cfg sOk : Bool) (emp : Employee)
    (horg : orgid ≠ 0) (hemp : empid ≠ 0)
    (hfind : findEmployee db orgid empid = some emp)
    (hmail : emp.empemail ≠ "")
    (huniq : db.otps.countP (fun x => x.key == otpKey orgid empid) ≤ 1) :
    findOtp (request_otp db (.jint orgid) (.jint empid) drawn now cfg sOk).2.otps
        (otpKey orgid empid) = some ⟨otpKey orgid empid, toString drawn, now⟩ ∧
    (request_otp db (.jint orgid) (.jint empid) drawn now cfg sOk).2.otps.countP
        (fun x => x.key == otpKey orgid empid) = 1 ∧
    ∀ (old : String) (vnow : Nat), old ≠ toString drawn →
      (validate_otp (request_otp db (.jint orgid) (.jint empid) drawn now cfg sOk).2
        (.jint orgid) (.jint empid) (.jstr old) vnow).1.status = 400 := by
  have h0 : (orgid == 0) = false := beq_zero_false horg
  have h1 : (empid == 0) = false := beq_zero_false hemp
  have hreq := request_otp_state db orgid empid drawn now cfg sOk emp horg hemp hfind hmail
  rw [hreq]
  have hfound := findOtp_upsertOtp_self db.otps (otpKey orgid empid) (toString drawn) now
  refine ⟨hfound, countP_upsertOtp db.otps (otpKey orgid empid) (toString drawn) now huniq, ?_⟩
  intro old vnow hne
  by_cases hoe : old = ""
  · subst hoe
    simp [validate_otp, pyInt, pyTruthy]
  · have hto : (old == "") = false := beq_eq_false_iff_ne.mpr hoe
    by_cases hexp : 300 < vnow - now
    · simp [validate_otp, pyInt, pyTruthy, h0, h1, hto, hoe, hfound, hexp]
    · have hmm : (toString drawn == old) = false := beq_eq_false_iff_ne.mpr (Ne.symm hne)
      simp [validate_otp, pyInt, pyTruthy, h0, h1, hto, hoe, hfound, hexp, pyEqStr, hmm]

/-- Witness for the amended C3: after a RequestOTP drawing 4321 over
the pending code 5555, the single record holds 4321 and the old code
5555 no longer validates, unexpired or not. -/
theorem C3_witness :
    findOtp (request_otp c3Db (.jint 1) (.jint 7) 4321 100 true true).2.otps
        (otpKey 1 7) = some ⟨otpKey 1 7, toString 4321, 100⟩ ∧
    (request_otp c3Db (.jint 1) (.jint 7) 4321 100 true true).2.otps.countP
        (fun x => x.key == otpKey 1 7) = 1 ∧
    (validate_otp (request_otp c3Db (.jint 1) (.jint 7) 4321 100 true true).2
      (.jint 1) (.jint 7) (.jstr "5555") 100).1.status = 400 := by
  have h := C3_request_overwrites c3Db 1 7 4321 100 true true wEmp
    (by decide) (by decide) rfl (by decide) (by decide)
  exact ⟨h.1, h.2.1, h.2.2 "5555" 100 (by decide)⟩

/-- Counterexample to C6 as stated: a SaveTranscription whose
audioData is not decodable base64 is answered with 500, not 400; an
entirely absent orgId also gives 500 because the int conversion raises
before the presence check; and the register endpoint's missing-field
error is the fixed text "All fields are required", which does not list
the missing fields. -/
theorem C6_counterexample :
    (b64decode "a" =
      .error "Invalid base64-encoded string: number of data characters cannot be 1 more than a multiple of 4") ∧
    (save_transcription wDb (.jint 1) (.jint 7) (.jint 3) "hello" (some "a")
      ⟨2024, 1, 1, 0, 0, 0, 0⟩).1.status = 500 ∧
    ¬ (save_transcription wDb (.jint 1) (.jint 7) (.jint 3) "hello" (some "a")
      ⟨2024, 1, 1, 0, 0, 0, 0⟩).1.status = 400 ∧
    (save_transcription wDb .jnull (.jint 7) (.jint 3) "hello" none
      ⟨2024, 1, 1, 0, 0, 0, 0⟩).1.status = 500 ∧
    (register wDb (.jint 2) (.jint 9) "O2" "" "addr" "ph" "em" "e" "es" "ep" "ee").1 =
      ⟨400, .error "All fields are required"⟩ := by
  decide

/-- Claim C6 as amended: a required field that is present but falsy
(zero or the empty string) is rejected with the 400 validation error
carrying a generic message naming the endpoint's required fields
collectively (the register error does not list the individual missing
fields); whereas an entirely absent integer id field, or a
SaveTranscription audioData that is not decodable base64, raises an
exception that the catch-all handler maps to HTTP 500. -/
theorem C6_validation_behaviour :
    (∀ (db : DB) (orgid empid clientid : Int) (audio : Option String) (now : DT),
      save_transcription db (.jint orgid) (.jint empid) (.jint clientid) "" audio now =
        (⟨400, .error "orgid, empid, clientid, and transcriptiontext are required"⟩, db)) ∧
    (∀ (db : DB) (empV clientV : JVal) (txt : String) (audio : Option String) (now : DT),
      (save_transcription db .jnull empV clientV txt audio now).1.status = 500 ∧
      (save_transcription db .jnull empV clientV txt audio now).2 = db) ∧
    (∀ (db : DB) (orgid empid clientid : Int) (txt s e : String) (now : DT),
      orgid ≠ 0 → empid ≠ 0 → clientid ≠ 0 → txt ≠ "" → s ≠ "" →
      b64decode s = .error e →
      db.clients.any (fun c => c.orgid == orgid && c.clientid == clientid) = true →
      save_transcription db (.jint orgid) (.jint empid) (.jint clientid) txt (some s) now =
        (⟨500, .error ("Unexpected error: " ++ e)⟩, db)) ∧
    (∀ (db : DB) (orgid empid : Int)
       (orgname address phone email empname empshortname empphone empemail : String),
      register db (.jint orgid) (.jint empid) orgname "" address phone email
          empname empshortname empphone empemail =
        (⟨400, .error "All fields are required"⟩, db)) := by
  refine ⟨?_, ?_, ?_, ?_⟩
  · intro db orgid empid clientid audio now
    simp [save_transcription, pyInt]
  · intro db empV clientV txt audio now
    refine ⟨?_, ?_⟩ <;> simp [save_transcription, pyInt, unexpectedError]
  · intro db orgid empid clientid txt s e now horg hemp hcl htxt hs hdecode hclient
    have h0 : (orgid == 0) = false := beq_zero_false horg
    have h1 : (empid == 0) = false := beq_zero_false hemp
    have h2 : (clientid == 0) = false := beq_zero_false hcl
    have h3 : (txt == "") = false := beq_eq_false_iff_ne.mpr htxt
    have h4 : (s == "") = false := beq_eq_false_iff_ne.mpr hs
    simp [save_transcription, pyInt, h0, h1, h2, h3, h4, hclient, hdecode, unexpectedError]
  · intro db orgid empid orgname address phone email empname empshortname empphone empemail
    simp [register, pyInt]

/-- Witness for the amended C6 at concrete requests. -/
theorem C6_witness :
    save_transcription wDb (.jint 1) (.jint 7) (.jint 3) "" none ⟨2024, 1, 1, 0, 0, 0, 0⟩ =
      (⟨400, .error "orgid, empid, clientid, and transcriptiontext are required"⟩, wDb) ∧
    (save_transcription wDb .jnull (.jint 7) (.jint 3) "hello" none
      ⟨2024, 1, 1, 0, 0, 0, 0⟩).1.status = 500 ∧
    save_transcription wDb (.jint 1) (.jint 7) (.jint 3) "hello" (some "ab")
        ⟨2024, 1, 1, 0, 0, 0, 0⟩ =
      (⟨500, .error ("Unexpected error: " ++ "Incorrect padding")⟩, wDb) ∧
    register wDb (.jint 2) (.jint 9) "O2" "" "addr" "ph" "em" "e" "es" "ep" "ee" =
      (⟨400, .error "All fields are required"⟩, wDb) := by
  have h := C6_validation_behaviour
  exact ⟨h.1 wDb 1 7 3 none ⟨2024, 1, 1, 0, 0, 0, 0⟩,
    (h.2.1 wDb (.jint 7) (.jint 3) "hello" none ⟨2024, 1, 1, 0, 0, 0, 0⟩).1,
    h.2.2.1 wDb 1 7 3 "hello" "ab" "Incorrect padding" ⟨2024, 1, 1, 0, 0, 0, 0⟩
      (by decide) (by decide) (by decide) (by decide) (by decide) (by decide) (by decide),
    h.2.2.2 wDb 2 9 "O2" "addr" "ph" "em" "e" "es" "ep" "ee"⟩

theorem pyOrZero_some (m : Int) : pyOrZero (some m) = m := by
  by_cases h : m = 0 <;> simp [pyOrZero, h]

theorem maxClientId_eq_none (orgid : Int) :
    ∀ (l : List Client), (∀ c ∈ l, c.orgid ≠ orgid) → maxClientId l orgid = none := by
  intro l
  induction l with
  | nil => intro _; rfl
  | cons a rs ih =>
    intro h
    have ha : a.orgid ≠ orgid := h a (List.mem_cons_self a rs)
    have hb : (a.orgid == orgid) = false := beq_eq_false_iff_ne.mpr ha
    have hrs := ih (fun c hc => h c (List.mem_cons_of_mem a hc))
    simp [maxClientId, hb, hrs]

/-- Claim C7: for every existing organization and a valid request,
RegisterClient succeeds, returns the assigned client id in the response
body, appends the client row with that id, and the id is 1 when the
organization has no clients and 1 plus the maximum existing client id
of the organization otherwise (so it is strictly greater than every
existing id and either 1 or the successor of an existing id); the
handler answers with the conflict error whenever its defensive re-check
finds a row with the computed id. -/
theorem C7_register_client_next_id
    (db : DB) (orgid : Int) (cname csn : String) (cphone : Option String) (cemail : String)
    (horg : orgid ≠ 0) (hname : cname ≠ "") (hemail : cemail ≠ "")
    (hexists : db.organizations.any (fun o => o.orgid == orgid) = true) :
    (register_client db (.jint orgid) cname csn cphone cemail).1 =
      ⟨200, .clientCreated "Client registered successfully"
        (pyOrZero (maxClientId db.clients orgid) + 1)⟩ ∧
    (register_client db (.jint orgid) cname csn cphone cemail).2 =
      { db with clients := db.clients ++
          [⟨pyOrZero (maxClientId db.clients orgid) + 1, orgid, cname, csn, cphone.getD "NA", cemail⟩] } ∧
    ((∀ c ∈ db.clients, c.orgid ≠ orgid) → pyOrZero (maxClientId db.clients orgid) + 1 = 1) ∧
    (∀ m : Int, maxClientId db.clients orgid = some m →
      pyOrZero (maxClientId db.clients orgid) + 1 = m + 1) ∧
    (∀ c ∈ db.clients, c.orgid = orgid →
      c.clientid < pyOrZero (maxClientId db.clients orgid) + 1) ∧
    (pyOrZero (maxClientId db.clients orgid) + 1 = 1 ∨
      ∃ c ∈ db.clients, c.orgid = orgid ∧
        c.clientid + 1 = pyOrZero (maxClientId db.clients orgid) + 1) ∧
    (db.clients.any (fun c => c.orgid == orgid &&
        c.clientid == pyOrZero (maxClientId db.clients orgid) + 1) = true →
      (register_client db (.jint orgid) cname csn cphone cemail).1 =
        ⟨400, .error "Client with this clientid already exists in this organization"⟩) := by
  have h0 : (orgid == 0) = false := beq_zero_false horg
  have hn : (cname == "") = false := beq_eq_false_iff_ne.mpr hname
  have he : (cemail == "") = false := beq_eq_false_iff_ne.mpr hemail
  have hnc := nextClientId_not_present db.clients orgid
  refine ⟨?_, ?_, ?_, ?_, ?_, ?_, ?_⟩
  · simp [register_client, pyInt, h0, hn, he, hexists, hnc]
  · simp [register_client, pyInt, h0, hn, he, hexists, hnc]
  · intro hnone
    rw [maxClientId_eq_none orgid db.clients hnone]
    rfl
  · intro m hm
    rw [hm, pyOrZero_some]
  · intro c hc hco
    rcases hrec : maxClientId db.clients orgid with _ | m
    · exact absurd hco (maxClientId_none orgid db.clients hrec c hc)
    · have := maxClientId_le orgid db.clients m hrec c hc hco
      rw [pyOrZero_some]
      omega
  · rcases hrec : maxClientId db.clients orgid with _ | m
    · exact Or.inl rfl
    · obtain ⟨c, hcm, hco, hcid⟩ := maxClientId_attained orgid db.clients m hrec
      exact Or.inr ⟨c, hcm, hco, by rw [hcid, pyOrZero_some]⟩
  · intro hdup
    rw [hnc] at hdup
    exact absurd hdup (by simp)

/-- Witness for C7: organization 1 of the concrete database has one
client with id 3, so the next client gets id 4 and a re-run on the
empty-client database gets id 1. -/
theorem C7_witness :
    (register_client wDb (.jint 1) "New" "N" none "n@x").1 =
      ⟨200, .clientCreated "Client registered successfully"
        (pyOrZero (maxClientId wDb.clients 1) + 1)⟩ ∧
    pyOrZero (maxClientId wDb.clients 1) + 1 = 4 :=
  ⟨(C7_register_client_next_id wDb 1 "New" "N" none "n@x"
      (by decide) (by decide) (by decide) (by decide)).1, by decide⟩

/-- Claim C8: for every stored note, UpdateNote with the exactly
matching organization, employee, client and datetime tuple (the tuple
identifying that single note) changes only that note's text, keeping
its datetime, audio and every other note unchanged; and UpdateNote
with a datetime matching no stored note, including one differing only
in microseconds, fails with the not-found error and modifies
nothing. -/
theorem C8_update_note_exact_match
    (db : DB) (n : Note) (dtstr newText : String)
    (hmem : n ∈ db.notes)
    (horg : n.orgid ≠ 0) (hemp : n.empid ≠ 0) (hcl : n.clientid ≠ 0)
    (hdtstr : dtstr ≠ "") (htxt : newText ≠ "")
    (hparse : strptime6 dtstr = some n.dtime)
    (huniq : ∀ m ∈ db.notes,
      noteMatches m n.orgid n.empid n.clientid n.dtime = true → m = n) :
    update_note db (.jint n.orgid) (.jint n.empid) (.jint n.clientid) dtstr newText =
      (⟨200, .message "Transcription updated successfully"⟩,
       { db with notes := db.notes.map (fun m => if m = n then { n with textnotes := newText } else m) }) ∧
    (∀ (dtstr2 : String) (dt2 : DT), dtstr2 ≠ "" → strptime6 dtstr2 = some dt2 →
      (∀ m ∈ db.notes, noteMatches m n.orgid n.empid n.clientid dt2 = false) →
      update_note db (.jint n.orgid) (.jint n.empid) (.jint n.clientid) dtstr2 newText =
        (⟨404, .error "No matching note found to update"⟩, db)) := by
  have h0 : (n.orgid == 0) = false := beq_zero_false horg
  have h1 : (n.empid == 0) = false := beq_zero_false hemp
  have h2 : (n.clientid == 0) = false := beq_zero_false hcl
  have h3 : (dtstr == "") = false := beq_eq_false_iff_ne.mpr hdtstr
  have h4 : (newText == "") = false := beq_eq_false_iff_ne.mpr htxt
  have hself : noteMatches n n.orgid n.empid n.clientid n.dtime = true := by
    simp [noteMatches]
  have hpos : 0 < db.notes.countP
      (fun m => noteMatches m n.orgid n.empid n.clientid n.dtime) :=
    List.countP_pos_iff.mpr ⟨n, hmem, hself⟩
  have hcount : (db.notes.countP
      (fun m => noteMatches m n.orgid n.empid n.clientid n.dtime) == 0) = false := by
    have := Nat.pos_iff_ne_zero.mp hpos
    exact beq_eq_false_iff_ne.mpr this
  have hcongr : db.notes.map (fun m =>
        if noteMatches m n.orgid n.empid n.clientid n.dtime then
          { m with textnotes := newText } else m) =
      db.notes.map (fun m => if m = n then { n with textnotes := newText } else m) := by
    apply List.map_congr_left
    intro m hm
    by_cases hmatch : noteMatches m n.orgid n.empid n.clientid n.dtime = true
    · have hmn := huniq m hm hmatch
      subst hmn
      simp [hmatch]
    · have hmn : ¬ m = n := by
        intro heq
        subst heq
        exact hmatch hself
      simp [hmatch, hmn]
  constructor
  · simp only [update_note, pyInt, h0, h1, h2, h3, h4, hparse]
    simp [hcount, hcongr]
  · intro dtstr2 dt2 hne2 hparse2 hnomatch
    have h5 : (dtstr2 == "") = false := beq_eq_false_iff_ne.mpr hne2
    have hzero : db.notes.countP
        (fun m => noteMatches m n.orgid n.empid n.clientid dt2) = 0 :=
      List.countP_eq_zero.mpr (fun m hm => by simp [hnomatch m hm])
    simp only [update_note, pyInt, h0, h1, h2, h5, h4, hparse2]
    simp [hzero]

/-- Witness for C8: the stored note of the concrete database is
updated through its exact datetime and a request differing only in the
last microsecond digit is answered with the not-found error. -/
theorem C8_witness :
    update_note wDb (.jint 1) (.jint 7) (.jint 3) "2024-03-05T10:20:30.123456" "new" =
      (⟨200, .message "Transcription updated successfully"⟩,
       { wDb with notes := wDb.notes.map (fun m => if m = wNote then { wNote with textnotes := "new" } else m) }) ∧
    update_note wDb (.jint 1) (.jint 7) (.jint 3) "2024-03-05T10:20:30.123457" "new" =
      (⟨404, .error "No matching note found to update"⟩, wDb) := by
  have h := C8_update_note_exact_match wDb wNote "2024-03-05T10:20:30.123456" "new"
    (by decide) (by decide) (by decide) (by decide) (by decide) (by decide)
    (by decide) (by decide)
  exact ⟨h.1, h.2 "2024-03-05T10:20:30.123457" ⟨2024, 3, 5, 10, 20, 30, 123457⟩
    (by decide) (by decide) (by decide)⟩

/-- Claim C9: for every RequestOTP on an existing employee with an
email on file, when the email transport is unconfigured or the send
fails the handler still answers 200 with the new OTP row persisted,
and the message reports the degraded outcome instead of the success
message. -/
theorem C9_email_failure_still_persists
    (db : DB) (orgid empid : Int) (drawn now : Nat) (emp : Employee)
    (horg : orgid ≠ 0) (hemp : empid ≠ 0)
    (hfind : findEmployee db orgid empid = some emp)
    (hmail : emp.empemail ≠ "") :
    (∀ sOk, request_otp db (.jint orgid) (.jint empid) drawn now false sOk =
      (⟨200, .message "Email service not configured. Check the server logs for the OTP."⟩,
       { db with otps := upsertOtp db.otps (otpKey orgid empid) (toString drawn) now })) ∧
    request_otp db (.jint orgid) (.jint empid) drawn now true false =
      (⟨200, .message "Failed to send OTP via email. Check the server logs for the OTP."⟩,
       { db with otps := upsertOtp db.otps (otpKey orgid empid) (toString drawn) now }) ∧
    findOtp (upsertOtp db.otps (otpKey orgid empid) (toString drawn) now)
        (otpKey orgid empid) = some ⟨otpKey orgid empid, toString drawn, now⟩ ∧
    ("Email service not configured. Check the server logs for the OTP." ≠
      "OTP sent to your registered email address" ∧
     "Failed to send OTP via email. Check the server logs for the OTP." ≠
      "OTP sent to your registered email address") := by
  have h0 : (orgid == 0) = false := beq_zero_false horg
  have h1 : (empid == 0) = false := beq_zero_false hemp
  have h2 : (emp.empemail == "") = false := beq_eq_false_iff_ne.mpr hmail
  refine ⟨?_, ?_, findOtp_upsertOtp_self db.otps (otpKey orgid empid) (toString drawn) now,
    by decide, by decide⟩
  · intro sOk
    cases sOk <;> simp [request_otp, pyInt, h0, h1, hfind, h2]
  · simp [request_otp, pyInt, h0, h1, hfind, h2]

/-- Witness for C9 at the concrete database. -/
theorem C9_witness :
    request_otp wDb (.jint 1) (.jint 7) 5555 100 false true =
      (⟨200, .message "Email service not configured. Check the server logs for the OTP."⟩,
       { wDb with otps := upsertOtp wDb.otps (otpKey 1 7) (toString 5555) 100 }) ∧
    request_otp wDb (.jint 1) (.jint 7) 5555 100 true false =
      (⟨200, .message "Failed to send OTP via email. Check the server logs for the OTP."⟩,
       { wDb with otps := upsertOtp wDb.otps (otpKey 1 7) (toString 5555) 100 }) ∧
    findOtp (upsertOtp wDb.otps (otpKey 1 7) (toString 5555) 100) (otpKey 1 7) =
      some ⟨otpKey 1 7, toString 5555, 100⟩ := by
  have h := C9_email_failure_still_persists wDb 1 7 5555 100 wEmp
    (by decide) (by decide) rfl (by decide)
  exact ⟨h.1 true, h.2.1, h.2.2.1⟩

/-- Claim C10: for every operation taking the integer identifiers
orgId, empId or clientId, a supplied value of 0 passes the int
conversion but fails the truthiness presence check, so the request is
rejected with the generic missing-required-fields 400 error of that
endpoint and the state is unchanged; since the creating operations
(register, register-client, save-transcription) reject every request
carrying a 0 id without touching the tables and the remaining
operations reject 0 before any lookup, no entity with id 0 is ever
created or addressed. -/
theorem C10_zero_ids_rejected :
    (∀ (db : DB) (empid : Int) (drawn now : Nat) (cfg sOk : Bool),
      request_otp db (.jint 0) (.jint empid) drawn now cfg sOk =
        (⟨400, .error "orgid and empid are required"⟩, db)) ∧
    (∀ (db : DB) (orgid : Int) (drawn now : Nat) (cfg sOk : Bool),
      request_otp db (.jint orgid) (.jint 0) drawn now cfg sOk =
        (⟨400, .error "orgid and empid are required"⟩, db)) ∧
    (∀ (db : DB) (empid : Int) (otpV : JVal) (now : Nat),
      validate_otp db (.jint 0) (.jint empid) otpV now =
        (⟨400, .error "orgid, empid, and OTP are required"⟩, db)) ∧
    (∀ (db : DB) (orgid : Int) (otpV : JVal) (now : Nat),
      validate_otp db (.jint orgid) (.jint 0) otpV now =
        (⟨400, .error "orgid, empid, and OTP are required"⟩, db)) ∧
    (∀ (db : DB) (empid : Int)
       (orgname shortname address phone email empname empshortname empphone empemail : String),
      register db (.jint 0) (.jint empid) orgname shortname address phone email
          empname empshortname empphone empemail =
        (⟨400, .error "All fields are required"⟩, db)) ∧
    (∀ (db : DB) (orgid : Int)
       (orgname shortname address phone email empname empshortname empphone empemail : String),
      register db (.jint orgid) (.jint 0) orgname shortname address phone email
          empname empshortname empphone empemail =
        (⟨400, .error "All fields are required"⟩, db)) ∧
    (∀ (db : DB) (cname csn : String) (cphone : Option String) (cemail : String),
      register_client db (.jint 0) cname csn cphone cemail =
        (⟨400, .error "orgid, clientname, and clientemail are required"⟩, db)) ∧
    (∀ (db : DB),
      fetch_clients db (.jint 0) = (⟨400, .error "orgid is required"⟩, db)) ∧
    (∀ (db : DB) (empid clientid : Int) (txt : String) (audio : Option String) (now : DT),
      save_transcription db (.jint 0) (.jint empid) (.jint clientid) txt audio now =
        (⟨400, .error "orgid, empid, clientid, and transcriptiontext are required"⟩, db)) ∧
    (∀ (db : DB) (orgid clientid : Int) (txt : String) (audio : Option String) (now : DT),
      save_transcription db (.jint orgid) (.jint 0) (.jint clientid) txt audio now =
        (⟨400, .error "orgid, empid, clientid, and transcriptiontext are required"⟩, db)) ∧
    (∀ (db : DB) (orgid empid : Int) (txt : String) (audio : Option String) (now : DT),
      save_transcription db (.jint orgid) (.jint empid) (.jint 0) txt audio now =
        (⟨400, .error "orgid, empid, clientid, and transcriptiontext are required"⟩, db)) ∧
    (∀ (db : DB) (empid clientid : Int) (selV : JVal),
      fetch_notes db (.jint 0) (.jint empid) (.jint clientid) selV =
        (⟨400, .error "orgid, empid, and clientid are required"⟩, db)) ∧
    (∀ (db : DB) (orgid clientid : Int) (selV : JVal),
      fetch_notes db (.jint orgid) (.jint 0) (.jint clientid) selV =
        (⟨400, .error "orgid, empid, and clientid are required"⟩, db)) ∧
    (∀ (db : DB) (orgid empid : Int) (selV : JVal),
      fetch_notes db (.jint orgid) (.jint empid) (.jint 0) selV =
        (⟨400, .error "orgid, empid, and clientid are required"⟩, db)) ∧
    (∀ (db : DB) (empid clientid : Int) (dts txt : String),
      update_note db (.jint 0) (.jint empid) (.jint clientid) dts txt =
        (⟨400, .error "orgid, empid, clientid, dateTime, and newText are required"⟩, db)) ∧
    (∀ (db : DB) (orgid clientid : Int) (dts txt : String),
      update_note db (.jint orgid) (.jint 0) (.jint clientid) dts txt =
        (⟨400, .error "orgid, empid, clientid, dateTime, and newText are required"⟩, db)) ∧
    (∀ (db : DB) (orgid empid : Int) (dts txt : String),
      update_note db (.jint orgid) (.jint empid) (.jint 0) dts txt =
        (⟨400, .error "orgid, empid, clientid, dateTime, and newText are required"⟩, db)) := by
  refine ⟨?_, ?_, ?_, ?_, ?_, ?_, ?_, ?_, ?_, ?_, ?_, ?_, ?_, ?_, ?_, ?_, ?_⟩ <;> intros <;>
    simp [request_otp, validate_otp, register, register_client, fetch_clients,
      save_transcription, fetch_notes, update_note, pyInt]
